import Mathlib

/-!
Shallow embedding of the takumitools OpenAPI client code generator
(`src/takumitools/code_generator.py`), together with theorems about the
generation functions.  Python dictionaries with a fixed key set are modelled
as structures; dictionaries with dynamic keys are modelled as association
lists (`List (String × _)`), which preserve insertion order exactly as
CPython dicts do; a possibly-raised `KeyError` is modelled with
`Except String`.  Generated source text is modelled as `String`, with every
brace written via the `\x7b` / `\x7d` escapes and every single quote via
`\x27`.
-/

namespace TakumiTools

/-- Python `str.lower()` (ASCII case mapping, as used by the generator). -/
def pyLower (s : String) : String := ⟨s.data.map Char.toLower⟩

/-- Python `str.upper()` (ASCII case mapping, as used by the generator). -/
def pyUpper (s : String) : String := ⟨s.data.map Char.toUpper⟩

/-- Python `str.capitalize()`: first character upper-cased, the rest lower-cased. -/
def pyCapitalize (s : String) : String :=
  match s.data with
  | [] => ""
  | c :: rest => ⟨c.toUpper :: rest.map Char.toLower⟩

/-- Python `path.strip("/")`: remove leading and trailing slash characters. -/
def pyStripSlashes (s : String) : String :=
  ⟨((s.data.dropWhile (fun c => c == '/')).reverse.dropWhile (fun c => c == '/')).reverse⟩

/-- Python `str.rstrip(", ")`: remove every trailing character that is a comma
or a space (character-set semantics, exactly as `str.rstrip` treats its
argument). -/
def pyRstrip (s : String) : String :=
  ⟨(s.data.reverse.dropWhile (fun c => c == ',' || c == ' ')).reverse⟩

/-- Auxiliary loop for `pySplitChar`: `acc` holds the current piece in
reverse. -/
def splitCharAux (sep : Char) : List Char → List Char → List String
  | [], acc => [⟨acc.reverse⟩]
  | c :: rest, acc =>
    if c == sep then ⟨acc.reverse⟩ :: splitCharAux sep rest []
    else splitCharAux sep rest (c :: acc)

/-- Python `str.split(sep)` for a one-character separator (the generator
only splits on `"/"` and `"_"`): `"".split(sep) == [""]` and empty pieces
between separators are kept. -/
def pySplitChar (sep : Char) (s : String) : List String :=
  splitCharAux sep s.data []

/-- Python `sep.join(parts)`. -/
def pyJoin (sep : String) : List String → String
  | [] => ""
  | [x] => x
  | x :: y :: xs => x ++ sep ++ pyJoin sep (y :: xs)

/-- Concatenation of a list of text pieces, as produced by the generator's
`code += piece` accumulation loops. -/
def pyConcat : List String → String
  | [] => ""
  | x :: xs => x ++ pyConcat xs

/-- Python `str.replace(old, new)`: replace every occurrence of `old`
(non-overlapping, left to right).  The fuel argument is the length of the
subject string, which bounds the recursion. -/
def replaceList (fuel : Nat) (s old new : List Char) : List Char :=
  match fuel, s with
  | 0, s => s
  | _, [] => []
  | fuel + 1, c :: rest =>
    if !old.isEmpty && old.isPrefixOf (c :: rest) then
      new ++ replaceList fuel ((c :: rest).drop old.length) old new
    else
      c :: replaceList fuel rest old new

/-- Python `s.replace(old, new)` lifted to `String`. -/
def pyReplace (s old new : String) : String :=
  ⟨replaceList s.data.length s.data old.data new.data⟩

/-- A `parameters` entry: the generator reads `param["name"]`, `param["in"]`,
`param.get("required", False)`, `param.get("type", "string")` (inside
`_get_param_type`) and `param.get("description", "")`. -/
structure Param where
  name : String
  loc : String
  required : Bool := false
  type? : Option String := none
  description : String := ""
deriving DecidableEq

/-- The entry the generator appends to `params_list`:
`{"name": ..., "in": ..., "description": ...}`. -/
structure ParamInfo where
  name : String
  loc : String
  description : String
deriving DecidableEq

/-- The entry the generator appends to `body_params`:
`{"name": prop_name, "type": param_type}`. -/
structure BodyParam where
  name : String
  ty : String
deriving DecidableEq

/-- A schema property value: `_get_param_type` reads only
`prop_details.get("type", "string")`. -/
structure PropDetails where
  type? : Option String := none
deriving DecidableEq

/-- A schema object: `schema["properties"]` is accessed directly (a mandatory
key) and `schema.get("required", [])` defaults to the empty list. -/
structure SchemaObj where
  properties : List (String × PropDetails)
  required : List String := []
deriving DecidableEq

/-- A media-type object: the generator accesses only its `"schema"` key. -/
structure MediaObject where
  schema : SchemaObj
deriving DecidableEq

/-- A request body: the generator accesses `request_body["content"]`, a
mapping from content-type string to media-type object. -/
structure RequestBody where
  content : List (String × MediaObject)
deriving DecidableEq

/-- A response object: the generator accesses `response["content"]`. -/
structure ResponseObj where
  content : List (String × MediaObject)
deriving DecidableEq

/-- An operation object, with the keys `_generate_method` reads:
`operationId` (defaulted), `summary` (defaulted), `parameters` (defaulted to
`[]`), `requestBody` (optional) and `responses` (defaulted to `{}`). -/
structure Operation where
  operationId : Option String := none
  summary : Option String := none
  parameters : List Param := []
  requestBody : Option RequestBody := none
  responses : List (String × ResponseObj) := []
deriving DecidableEq

/-- The `type_mapping` dict literal of `CodeGenerator._get_param_type`. -/
def typeMapping : List (String × String) :=
  [("string", "str"), ("integer", "int"), ("boolean", "bool"),
   ("array", "list"), ("object", "Dict[str, Any]")]

/-- `CodeGenerator._get_param_type`: `param.get("type", "string")` looked up
in `type_mapping` with default `"Any"`.  The argument is the value of the
dict's `"type"` key (`none` when the key is absent). -/
def getParamType (type? : Option String) : String :=
  let paramType := type?.getD "string"
  (List.lookup paramType typeMapping).getD "Any"

/-- `CodeGenerator._generate_method_name`: `operation_id or
http_method.lower()` — Python falsiness makes both `None` and the empty
string fall back to the lower-cased HTTP method. -/
def generateMethodName (operationId : Option String) (httpMethod : String) : String :=
  match operationId with
  | none => pyLower httpMethod
  | some oid => if oid = "" then pyLower httpMethod else oid

/-- `CodeGenerator._generate_params_code`: builds the signature text, the
`params_list` metadata and the flattened `body_params`.  When a request body
is present, `request_body["content"]["application/json"]` is an unguarded
dict lookup; a missing `"application/json"` key raises `KeyError`, modelled
as `Except.error`. -/
def generateParamsCode (parameters : List Param) (requestBody : Option RequestBody) :
    Except String (String × List ParamInfo × List BodyParam) :=
  let paramsCode := parameters.map (fun param =>
    let paramType := getParamType param.type?
    let annotation :=
      if param.required then ": " ++ paramType
      else ": Optional[" ++ paramType ++ "] = None"
    param.name ++ annotation)
  let paramsList := parameters.map (fun param =>
    ({ name := param.name, loc := param.loc, description := param.description } : ParamInfo))
  match requestBody with
  | none => .ok (pyJoin ", " paramsCode, paramsList, [])
  | some rb =>
    match List.lookup "application/json" rb.content with
    | none => .error "KeyError: \x27application/json\x27"
    | some media =>
      let bodyCode := media.schema.properties.map (fun pd =>
        let paramType := getParamType pd.2.type?
        let required := media.schema.required.contains pd.1
        let annotation :=
          if required then ": " ++ paramType
          else ": Optional[" ++ paramType ++ "] = None"
        pd.1 ++ annotation)
      let bodyParams := media.schema.properties.map (fun pd =>
        ({ name := pd.1, ty := getParamType pd.2.type? } : BodyParam))
      .ok (pyJoin ", " (paramsCode ++ bodyCode), paramsList, bodyParams)

/-- The output of `CodeGenerator._create_model_class`: the returned class
name, plus the file name and content it hands to `_write_to_file`. -/
structure ModelOutput where
  className : String
  fileName : String
  code : String
deriving DecidableEq

/-- One field line of the synthesized model:
`    name: type = Field(...)` when the property is in the schema's
`required` list, `    name: type = Field(None)` otherwise. -/
def modelFieldLine (required : List String) (entry : String × PropDetails) : String :=
  let propType := getParamType entry.2.type?
  let defaultValue := if required.contains entry.1 then "..." else "None"
  "    " ++ entry.1 ++ ": " ++ propType ++ " = Field(" ++ defaultValue ++ ")\n"

/-- `CodeGenerator._create_model_class`: the class name is the constant
`"ResponseModel"`, the model text lists one `Field` line per property, and
the text is written to `f"{class_name.lower()}.py"`. -/
def createModelClass (schema : SchemaObj) : ModelOutput :=
  let className := "ResponseModel"
  let modelCode := "class " ++ className ++ "(BaseModel):\n" ++
    pyConcat (schema.properties.map (modelFieldLine schema.required))
  { className := className, fileName := pyLower className ++ ".py", code := modelCode }

/-- `CodeGenerator._generate_response_model`: scan the `responses` mapping in
order and return a model for the first entry whose `content` has an
`"application/json"` key; return `None` when no entry qualifies. -/
def generateResponseModel (responses : List (String × ResponseObj)) : Option ModelOutput :=
  match responses with
  | [] => none
  | (_, response) :: rest =>
    match List.lookup "application/json" response.content with
    | some media => some (createModelClass media.schema)
    | none => generateResponseModel rest

/-- The path-substitution line emitted for a `path`-located parameter.  The
Python f-string `'{{{{{param['name']}}}}}'` renders `{{` and `}}` pairs as
literal braces, so the emitted token carries doubled braces. -/
def pathSubstLine (name : String) : String :=
  "        path = path.replace(\x27\x7b\x7b" ++ name ++ "\x7d\x7d\x27, str(" ++ name ++ "))\n"

/-- One `body` dict entry as emitted inside the braces: `'name': name`. -/
def bodyEntryCore (bp : BodyParam) : String :=
  "\x27" ++ bp.name ++ "\x27: " ++ bp.name

/-- One `body` dict entry as the loop appends it, with the trailing `, `
that the later `rstrip(", ")` removes for the last entry. -/
def bodyEntryText (bp : BodyParam) : String :=
  bodyEntryCore bp ++ ", "

/-- The body-assembly block of `_generate_method`: when `body_params` is
truthy, open a dict literal, append one entry per body field, `rstrip(", ")`
the accumulated code, close the dict and strip `None` values; otherwise emit
`body = None`. -/
def appendBodySection (code : String) (bodyParams : List BodyParam) : String :=
  if bodyParams.isEmpty then
    code ++ "        body = None\n"
  else
    let code := code ++ "        body = \x7b" ++ pyConcat (bodyParams.map bodyEntryText)
    let code := pyRstrip code
    code ++ "\x7d\n" ++ "        body = \x7bk: v for k, v in body.items() if v is not None\x7d\n"

/-- The header line emitted for one declared content type: recognized types
(`application/json`, `multipart/form-data`) produce a `Content-Type`
assignment, every other type produces nothing. -/
def contentTypeHeaderLine (contentType : String) : Option String :=
  if contentType = "application/json" then
    some "        headers[\x27Content-Type\x27] = \x27application/json\x27\n"
  else if contentType = "multipart/form-data" then
    some "        headers[\x27Content-Type\x27] = \x27multipart/form-data\x27\n"
  else
    none

/-- All header-assignment lines for the declared content types, in
declaration order. -/
def headerAssignments (contentTypes : List String) : List String :=
  contentTypes.filterMap contentTypeHeaderLine

/-- The headers block of `_generate_method`: `headers = {}` always, then —
when a request body is declared — one line per recognized content type. -/
def generateHeaderSection (requestBody : Option RequestBody) : String :=
  "        headers = \x7b\x7d\n" ++
    match requestBody with
    | none => ""
    | some rb => pyConcat (headerAssignments (rb.content.map Prod.fst))

/-- The query-assembly block of `_generate_method`: when some parameter has
location `query`, build a dict of the query parameters and strip `None`
values; otherwise emit `params = None`. -/
def querySection (paramsList : List ParamInfo) : String :=
  if paramsList.any (fun p => p.loc == "query") then
    let queryParams := pyJoin ", "
      ((paramsList.filter (fun p => p.loc == "query")).map
        (fun p => "\x27" ++ p.name ++ "\x27: " ++ p.name))
    "        params = \x7b " ++ queryParams ++ " \x7d\n" ++
      "        params = \x7bk: v for k, v in params.items() if v is not None\x7d\n"
  else
    "        params = None\n"

/-- The `response_model = ...` line at the generated call site. -/
def responseModelLine (responseModel : Option ModelOutput) : String :=
  match responseModel with
  | some m => "        response_model = " ++ m.className ++ "\n"
  | none => "        response_model = None\n"

/-- `CodeGenerator._generate_method`: the full generated method text for one
operation.  `operation.get("operationId", path)` defaults the operation id to
the path string before `_generate_method_name` sees it. -/
def generateMethod (httpMethod : String) (path : String) (operation : Operation) :
    Except String String :=
  match generateParamsCode operation.parameters operation.requestBody with
  | .error e => .error e
  | .ok (paramsCode, paramsList, bodyParams) =>
    let methodName := generateMethodName (some (operation.operationId.getD path)) httpMethod
    let responseModel := generateResponseModel operation.responses
    let code := "def " ++ methodName ++ "(self, " ++ paramsCode ++ "):\n"
    let code := code ++ "        \"\"\"\n        " ++ operation.summary.getD "" ++ "\n\n"
    let code := code ++ "        :param path: " ++ path ++ "\n"
    let code := code ++ pyConcat (paramsList.map (fun p =>
      "        :param " ++ p.name ++ ": " ++ p.description ++ "\n"))
    let code := code ++ "        :return: The response from the API.\n        \"\"\"\n"
    let code := code ++ "        path = \x27" ++ path ++ "\x27\n"
    let code := code ++ pyConcat (paramsList.map (fun p =>
      if p.loc = "path" then pathSubstLine p.name else ""))
    let code := appendBodySection code bodyParams
    let code := code ++ generateHeaderSection operation.requestBody
    let code := code ++ querySection paramsList
    let code := code ++ "        factory = RequestHandlerFactory(self.client)\n"
    let code := code ++ "        handler = factory.get_handler(\x27" ++ pyUpper httpMethod ++
      "\x27, headers.get(\x27Content-Type\x27))\n"
    let code := code ++ responseModelLine responseModel
    let code := code ++ "        return handler.make_request(\n            path,\n" ++
      "            headers=headers,\n            params=params,\n            body=body,\n" ++
      "            response_model=response_model\n        )\n"
    .ok code

/-- `CodeGenerator._convert_to_class_name`: split on `_` and capitalize each
word. -/
def convertToClassName (segment : String) : String :=
  pyConcat ((pySplitChar '_' segment).map pyCapitalize)

/-- The expression `path.strip("/").split("/")[0]` of
`_generate_init_file`: the first segment of a path (Python `split` never
returns an empty list, so index `0` is total). -/
def firstSegment (path : String) : String :=
  ((pySplitChar '/' (pyStripSlashes path)).headD "")

/-- The `init_contents` list of `CodeGenerator._generate_init_file`: the base
client import followed by one import line per path of the document, each
naming the class derived from that path's first segment. -/
def initContents (paths : List String) : List String :=
  "from .apiclient_base import APIClientBase" ::
    paths.map (fun path =>
      let className := convertToClassName (firstSegment path)
      "from ." ++ className ++ " import " ++ className)

/-- `CodeGenerator._generate_init_file`: join the import lines with newlines
and terminate with a newline. -/
def generateInitFile (paths : List String) : String :=
  pyJoin "\n" (initContents paths) ++ "\n"

/-- `CodeGenerator._write_to_file`: the file is opened in write mode, so its
previous content is replaced.  The file store is modelled as an association
list from file name to content. -/
def writeToFile (store : List (String × String)) (filename content : String) :
    List (String × String) :=
  store.filter (fun e => e.1 != filename) ++ [(filename, content)]

/-- Helper predicate for the body-assembly theorem: the string is non-empty
and its last character is neither a comma nor a space, so `rstrip(", ")`
leaves it intact. -/
def lastCharOk (s : String) : Bool :=
  match s.data.getLast? with
  | none => false
  | some c => !(c == ',') && !(c == ' ')


theorem pyRstrip_append_comma_space (s : String) : pyRstrip (s ++ ", ") = pyRstrip s := by
  have h : (s ++ ", ").data = s.data ++ [',', ' '] := by
    rw [String.data_append]
  unfold pyRstrip
  rw [h, List.reverse_append]
  rfl

theorem pyRstrip_eq_self_of_lastCharOk (s : String) (h : lastCharOk s = true) :
    pyRstrip s = s := by
  unfold lastCharOk at h
  cases hl : s.data.getLast? with
  | none => rw [hl] at h; cases h
  | some c =>
    rw [hl] at h
    have hp : (c == ',' || c == ' ') = false := by
      cases hc : (c == ',') <;> cases hs : (c == ' ') <;> simp [hc, hs] at h ⊢
    have hrev : s.data.reverse.head? = some c := by rw [List.head?_reverse]; exact hl
    cases hr : s.data.reverse with
    | nil => rw [hr] at hrev; cases hrev
    | cons a as =>
      rw [hr] at hrev
      have hac : a = c := by
        have hsome : some a = some c := by simpa using hrev
        injection hsome
      unfold pyRstrip
      rw [hr]
      have hd : List.dropWhile (fun ch => ch == ',' || ch == ' ') (a :: as) = a :: as := by
        rw [List.dropWhile_cons, hac]
        simp [hp]
      rw [hd, ← hr, List.reverse_reverse]

theorem lastCharOk_append (s t : String) (h : lastCharOk t = true) :
    lastCharOk (s ++ t) = true := by
  unfold lastCharOk at *
  cases hl : t.data.getLast? with
  | none => rw [hl] at h; cases h
  | some c =>
    rw [hl] at h
    have hne : t.data ≠ [] := by
      intro he; rw [he] at hl; simp at hl
    rw [String.data_append, List.getLast?_append_of_ne_nil _ hne, hl]
    exact h

theorem lastCharOk_bodyEntryCore (bp : BodyParam) (h : lastCharOk bp.name = true) :
    lastCharOk (bodyEntryCore bp) = true :=
  lastCharOk_append _ _ h

theorem lastCharOk_pyJoin (x : String) (xs : List String)
    (h : ∀ s ∈ x :: xs, lastCharOk s = true) :
    lastCharOk (pyJoin ", " (x :: xs)) = true := by
  induction xs generalizing x with
  | nil => exact h x (by simp)
  | cons y ys ih =>
    have hj := ih y (fun s hs => h s (by simp at hs ⊢; tauto))
    exact lastCharOk_append (x ++ ", ") _ hj

theorem pyConcat_entries (bp : BodyParam) (bps : List BodyParam) :
    pyConcat ((bp :: bps).map bodyEntryText) =
      pyJoin ", " ((bp :: bps).map bodyEntryCore) ++ ", " := by
  induction bps generalizing bp with
  | nil =>
    show bodyEntryText bp ++ "" = bodyEntryCore bp ++ ", "
    rw [String.append_empty]
    rfl
  | cons b bs ih =>
    show bodyEntryText bp ++ pyConcat ((b :: bs).map bodyEntryText) = _
    rw [ih b]
    simp [pyJoin, bodyEntryText, String.append_assoc]


set_option maxRecDepth 10000 in
/-- C1: the spec says the generated method replaces the single-braced
placeholder token of each path parameter; the emitted replace call instead
targets a double-braced token (an over-escaped f-string), which never occurs
in the path template, so the placeholder survives substitution.  The last
two conjuncts evaluate the emitted runtime replace on the template: the
double-braced token leaves the path unchanged, while the single-braced token
of the specification would have substituted the value. -/
theorem c1_path_placeholder_bug :
    pathSubstLine "id" = "        path = path.replace(\x27\x7b\x7bid\x7d\x7d\x27, str(id))\n" ∧
    pathSubstLine "id" ≠ "        path = path.replace(\x27\x7bid\x7d\x27, str(id))\n" ∧
    pyReplace "/users/\x7bid\x7d" "\x7b\x7bid\x7d\x7d" "42" = "/users/\x7bid\x7d" ∧
    pyReplace "/users/\x7bid\x7d" "\x7bid\x7d" "42" = "/users/42" :=
  ⟨rfl, by decide, by decide, by decide⟩

set_option maxRecDepth 40000 in
/-- C2: with no `operationId`, `operation.get("operationId", path)` defaults
to the path string, so the generated method is named after the path (here
`def /users(self, ...)`) instead of the lower-cased HTTP method; the second
conjunct shows the helper's intended fallback, which the call site defeats. -/
theorem c2_method_name_bug :
    Except.map (fun c => c.take 17) (generateMethod "get" "/users" { }) =
      Except.ok "def /users(self, " ∧
    generateMethodName none "get" = "get" :=
  ⟨rfl, rfl⟩

/-- C6: for the schema with properties a (string) and b (integer) and
required = [a], the synthesized model marks a required (`Field(...)`) and b
optional (`Field(None)`); and the synthesizer is a pure function of the
schema, so invoking it twice on the same schema yields byte-identical
output. -/
theorem c6_model_round_trip :
    (createModelClass
        { properties := [("a", { type? := some "string" }), ("b", { type? := some "integer" })],
          required := ["a"] }).code =
      "class ResponseModel(BaseModel):\n    a: str = Field(...)\n    b: int = Field(None)\n" ∧
    ∀ schema : SchemaObj, (createModelClass schema).code = (createModelClass schema).code :=
  ⟨rfl, fun _ => rfl⟩

/-- C7: the schema-type mapper is total: the five recognized tokens map to
their target types and every other token maps to `Any` without error. -/
theorem c7_type_mapping :
    getParamType (some "string") = "str" ∧
    getParamType (some "integer") = "int" ∧
    getParamType (some "boolean") = "bool" ∧
    getParamType (some "array") = "list" ∧
    getParamType (some "object") = "Dict[str, Any]" ∧
    ∀ t : String, t ∉ (["string", "integer", "boolean", "array", "object"] : List String) →
      getParamType (some t) = "Any" := by
  refine ⟨rfl, rfl, rfl, rfl, rfl, ?_⟩
  intro t ht
  have h1 : t ≠ "string" := fun h => ht (by simp [h])
  have h2 : t ≠ "integer" := fun h => ht (by simp [h])
  have h3 : t ≠ "boolean" := fun h => ht (by simp [h])
  have h4 : t ≠ "array" := fun h => ht (by simp [h])
  have h5 : t ≠ "object" := fun h => ht (by simp [h])
  have b1 : (t == "string") = false := beq_eq_false_iff_ne.mpr h1
  have b2 : (t == "integer") = false := beq_eq_false_iff_ne.mpr h2
  have b3 : (t == "boolean") = false := beq_eq_false_iff_ne.mpr h3
  have b4 : (t == "array") = false := beq_eq_false_iff_ne.mpr h4
  have b5 : (t == "object") = false := beq_eq_false_iff_ne.mpr h5
  simp [getParamType, typeMapping, List.lookup, b1, b2, b3, b4, b5]

/-- Witness for the unrecognized-token case of `c7_type_mapping`. -/
theorem c7_type_mapping_witness :
    getParamType (some "number") = "Any" ∧
    "number" ∉ (["string", "integer", "boolean", "array", "object"] : List String) :=
  ⟨c7_type_mapping.2.2.2.2.2 "number" (by decide), by decide⟩


/-- C5: the header-derivation step emits exactly one `Content-Type`
assignment per declared content type that is `application/json` or
`multipart/form-data`, with the header value equal to that content type,
and zero assignments for every other declared content type (so a body
declaring only `application/json` yields exactly one assignment, and a body
declaring only an unlisted type yields zero). -/
theorem c5_content_type_headers :
    (∀ contentTypes : List String,
      headerAssignments contentTypes =
        (contentTypes.filter
            (fun ct => ct == "application/json" || ct == "multipart/form-data")).map
          (fun ct => "        headers[\x27Content-Type\x27] = \x27" ++ ct ++ "\x27\n")) ∧
    headerAssignments ["application/json"] =
      ["        headers[\x27Content-Type\x27] = \x27application/json\x27\n"] ∧
    headerAssignments ["text/plain"] = [] := by
  refine ⟨?_, rfl, rfl⟩
  intro cts
  induction cts with
  | nil => rfl
  | cons c cs ih =>
    by_cases h1 : c = "application/json"
    · subst h1
      simp only [headerAssignments, List.filterMap_cons, List.filter_cons] at ih ⊢
      simp [contentTypeHeaderLine, ih]
    · by_cases h2 : c = "multipart/form-data"
      · subst h2
        simp only [headerAssignments, List.filterMap_cons, List.filter_cons] at ih ⊢
        simp [contentTypeHeaderLine, ih]
      · simp only [headerAssignments, List.filterMap_cons, List.filter_cons] at ih ⊢
        simp [contentTypeHeaderLine, h1, h2, ih]

/-- C3: the response-model synthesizer returns the model for the first
entry (in preserved order) of the `responses` mapping whose content declares
`application/json`; when no entry declares it, no model is synthesized and
the generated call site sets `response_model = None`. -/
theorem c3_response_model_selection :
    (∀ (pre : List (String × ResponseObj)) (sc : String) (r : ResponseObj)
        (rest : List (String × ResponseObj)) (m : MediaObject),
      (∀ e ∈ pre, List.lookup "application/json" e.2.content = none) →
      List.lookup "application/json" r.content = some m →
      generateResponseModel (pre ++ (sc, r) :: rest) = some (createModelClass m.schema)) ∧
    (∀ responses : List (String × ResponseObj),
      (∀ e ∈ responses, List.lookup "application/json" e.2.content = none) →
      generateResponseModel responses = none ∧
      responseModelLine (generateResponseModel responses) = "        response_model = None\n") := by
  constructor
  · intro pre
    induction pre with
    | nil =>
      intro sc r rest m _ hr
      simp [generateResponseModel, hr]
    | cons e es ih =>
      intro sc r rest m hpre hr
      obtain ⟨sc', resp⟩ := e
      have he : List.lookup "application/json" resp.content = none :=
        hpre (sc', resp) (by simp)
      simp only [List.cons_append, generateResponseModel, he]
      exact ih sc r rest m (fun x hx => hpre x (by simp [hx])) hr
  · intro responses
    induction responses with
    | nil => exact fun _ => ⟨rfl, rfl⟩
    | cons e es ih =>
      intro h
      obtain ⟨sc', resp⟩ := e
      have he : List.lookup "application/json" resp.content = none :=
        h (sc', resp) (by simp)
      have hes := ih (fun x hx => h x (by simp [hx]))
      refine ⟨?_, ?_⟩
      · simp only [generateResponseModel, he]
        exact hes.1
      · simp only [responseModelLine, generateResponseModel, he]
        rw [hes.1]

/-- Witness for `c3_response_model_selection`: a concrete responses mapping
whose first entry declares only `text/plain` and whose second declares
`application/json`, and a mapping with no JSON entry at all. -/
theorem c3_response_model_selection_witness :
    generateResponseModel
        [("500", ⟨[("text/plain", ⟨⟨[], []⟩⟩)]⟩),
         ("200", ⟨[("application/json", ⟨⟨[("name", ⟨some "string"⟩)], ["name"]⟩⟩)]⟩)] =
      some (createModelClass ⟨[("name", ⟨some "string"⟩)], ["name"]⟩) ∧
    responseModelLine (generateResponseModel [("500", ⟨[("text/plain", ⟨⟨[], []⟩⟩)]⟩)]) =
      "        response_model = None\n" := by
  constructor
  · exact c3_response_model_selection.1 [("500", ⟨[("text/plain", ⟨⟨[], []⟩⟩)]⟩)] "200"
      ⟨[("application/json", ⟨⟨[("name", ⟨some "string"⟩)], ["name"]⟩⟩)]⟩ []
      ⟨⟨[("name", ⟨some "string"⟩)], ["name"]⟩⟩
      (by intro e he; simp at he; subst he; rfl) rfl
  · exact (c3_response_model_selection.2 [("500", ⟨[("text/plain", ⟨⟨[], []⟩⟩)]⟩)]
      (by intro e he; simp at he; subst he; rfl)).2

/-- C4: when an operation has body fields, the generated method builds a
dict from each body-field name to its bound value (the `rstrip(", ")` only
removes the trailing separator of the last entry) and then strips entries
whose value is `None`; when there are no body fields, the generated `body`
variable is `None` itself, never an empty dict. -/
theorem c4_body_assembly :
    (∀ code : String, appendBodySection code [] = code ++ "        body = None\n") ∧
    (∀ (code : String) (bp : BodyParam) (bps : List BodyParam),
      (∀ b ∈ bp :: bps, lastCharOk b.name = true) →
      appendBodySection code (bp :: bps) =
        code ++ "        body = \x7b" ++
          pyJoin ", " ((bp :: bps).map bodyEntryCore) ++
          "\x7d\n        body = \x7bk: v for k, v in body.items() if v is not None\x7d\n") := by
  constructor
  · intro code; rfl
  · intro code bp bps h
    show pyRstrip (code ++ "        body = \x7b" ++ pyConcat ((bp :: bps).map bodyEntryText)) ++
        "\x7d\n" ++ "        body = \x7bk: v for k, v in body.items() if v is not None\x7d\n" = _
    rw [pyConcat_entries]
    have hcores : ∀ s ∈ (bp :: bps).map bodyEntryCore, lastCharOk s = true := by
      intro s hs
      rw [List.mem_map] at hs
      obtain ⟨b, hb, rfl⟩ := hs
      exact lastCharOk_bodyEntryCore b (h b hb)
    have hJ : lastCharOk (pyJoin ", " ((bp :: bps).map bodyEntryCore)) = true :=
      lastCharOk_pyJoin _ _ hcores
    have hA : lastCharOk
        (code ++ "        body = \x7b" ++ pyJoin ", " ((bp :: bps).map bodyEntryCore)) = true :=
      lastCharOk_append _ _ hJ
    rw [show code ++ "        body = \x7b" ++ (pyJoin ", " ((bp :: bps).map bodyEntryCore) ++ ", ") =
        (code ++ "        body = \x7b" ++ pyJoin ", " ((bp :: bps).map bodyEntryCore)) ++ ", " from by
      simp [String.append_assoc]]
    rw [pyRstrip_append_comma_space, pyRstrip_eq_self_of_lastCharOk _ hA]
    simp [String.append_assoc]

/-- Witness for `c4_body_assembly`: two concrete body fields a and b. -/
theorem c4_body_assembly_witness :
    appendBodySection "" [⟨"a", "str"⟩, ⟨"b", "int"⟩] =
      "        body = \x7b\x27a\x27: a, \x27b\x27: b\x7d\n        body = \x7bk: v for k, v in body.items() if v is not None\x7d\n" := by
  have h := c4_body_assembly.2 "" ⟨"a", "str"⟩ [⟨"b", "int"⟩] (by decide)
  exact h.trans rfl


/-- C8 counterexample: for the two paths `/users` and `/users/posts` there is
exactly one distinct top-level segment, yet the assembled index contains the
`Users` re-export line twice — one line per path, not one per distinct
segment, so the claim of one import per distinct first segment is false. -/
theorem c8_counterexample :
    (initContents ["/users", "/users/posts"]).count "from .Users import Users" = 2 ∧
    ((["/users", "/users/posts"].map firstSegment).dedup).length = 1 := by
  constructor
  · rfl
  · rfl

/-- C8 amended: the index unit contains the base-client import plus one
re-export line per path of the document (naming the class derived from that
path's first segment); paths sharing a first segment therefore produce
duplicate re-export lines, and the line count is the number of paths, not
the number of distinct first segments. -/
theorem c8_one_import_per_path (paths : List String) :
    (initContents paths).length = paths.length + 1 ∧
    "from .apiclient_base import APIClientBase" ∈ initContents paths ∧
    ∀ path ∈ paths,
      ("from ." ++ convertToClassName (firstSegment path) ++ " import " ++
        convertToClassName (firstSegment path)) ∈ initContents paths := by
  refine ⟨by simp [initContents], by simp [initContents], ?_⟩
  intro path hp
  have hmem := List.mem_map_of_mem
    (fun path =>
      let className := convertToClassName (firstSegment path)
      "from ." ++ className ++ " import " ++ className) hp
  exact List.mem_cons_of_mem _ hmem

/-- Witness for `c8_one_import_per_path` at a concrete path list. -/
theorem c8_one_import_per_path_witness :
    (initContents ["/users", "/users/posts"]).length = 3 ∧
    "from .Users import Users" ∈ initContents ["/users", "/users/posts"] := by
  obtain ⟨h1, _, h3⟩ := c8_one_import_per_path ["/users", "/users/posts"]
  have heq : ("from ." ++ convertToClassName (firstSegment "/users") ++ " import " ++
      convertToClassName (firstSegment "/users")) = "from .Users import Users" := rfl
  exact ⟨h1, heq ▸ h3 "/users" (by simp)⟩

theorem lookup_writeToFile (store : List (String × String)) (f v : String) :
    List.lookup f (writeToFile store f v) = some v := by
  induction store with
  | nil => simp [writeToFile, List.lookup]
  | cons e es ih =>
    obtain ⟨k, w⟩ := e
    by_cases h : k = f
    · simpa [writeToFile, List.filter_cons, h] using ih
    · simp only [writeToFile, List.filter_cons] at ih ⊢
      rw [if_pos (by simp [h])]
      have hb : (f == k) = false := beq_eq_false_iff_ne.mpr (Ne.symm h)
      simpa [List.lookup, hb] using ih

/-- C9: the synthesized model class is always named `ResponseModel` and is
always written to the single unit `responsemodel.py`, so a later synthesis
overwrites an earlier one in the file store: after writing the models of two
schemas, the unit holds the second schema's model text. -/
theorem c9_single_model_unit (schema₁ schema₂ : SchemaObj) (store : List (String × String)) :
    (createModelClass schema₁).className = "ResponseModel" ∧
    (createModelClass schema₁).fileName = "responsemodel.py" ∧
    List.lookup "responsemodel.py"
        (writeToFile
          (writeToFile store (createModelClass schema₁).fileName (createModelClass schema₁).code)
          (createModelClass schema₂).fileName (createModelClass schema₂).code) =
      some (createModelClass schema₂).code := by
  refine ⟨rfl, rfl, ?_⟩
  have h2 : (createModelClass schema₂).fileName = "responsemodel.py" := rfl
  rw [← h2]
  exact lookup_writeToFile _ _ _

/-- C10: for an operation whose request body's content mapping lacks the
`application/json` key, flattening body fields in `_generate_params_code`
hits the unguarded lookup and raises `KeyError`, even though the header
derivation does recognize `multipart/form-data`. -/
theorem c10_missing_json_body_keyerror (parameters : List Param) (rb : RequestBody)
    (h : List.lookup "application/json" rb.content = none) :
    generateParamsCode parameters (some rb) =
      Except.error "KeyError: \x27application/json\x27" ∧
    contentTypeHeaderLine "multipart/form-data" =
      some "        headers[\x27Content-Type\x27] = \x27multipart/form-data\x27\n" := by
  constructor
  · simp [generateParamsCode, h]
  · rfl

/-- Witness for `c10_missing_json_body_keyerror`: a body declaring only
`multipart/form-data`. -/
theorem c10_missing_json_body_keyerror_witness :
    generateParamsCode [] (some ⟨[("multipart/form-data", ⟨⟨[], []⟩⟩)]⟩) =
      Except.error "KeyError: \x27application/json\x27" :=
  (c10_missing_json_body_keyerror [] ⟨[("multipart/form-data", ⟨⟨[], []⟩⟩)]⟩ (by rfl)).1

end TakumiTools
